import Mathlib

/-!
Verification development for the error-classification-and-remediation
pipeline (error router, four remediation agents, command runner, history).

The definitions below are a shallow embedding of the Python sources
`src/agents/error_router.py`, `dependency_agent.py`, `network_agent.py`,
`syntax_agent.py` and `hardware_agent.py`.  Python strings are modelled as
Lean `String` (lists of characters); the handful of regular expressions the
code uses are each embedded as a bespoke executable search function whose
doc comment names the regex it models.  Regex notes:

* `re.search` tries every start position, leftmost match wins;
* `.` does not match a newline, so a `.*` gap must be newline-free;
* greedy pieces (`.*`, `\w+`, `[...]+`) take the longest possible run,
  backtracking only when a longer run cannot complete the match;
* `re.IGNORECASE` is modelled by lowercasing both text and pattern
  (ASCII case folding, which is exact on the catalogue's patterns);
* `\w` is modelled as ASCII alphanumeric or underscore, `\s` as Python's
  ASCII whitespace set (the sources are exercised on ASCII error texts).

Side effects: `subprocess.run` is modelled by an oracle `CmdEnv` mapping a
command string and the timeout bound to an outcome (exit with code and
captured streams, timeout, or a raised exception).  Functions that execute
commands additionally return the list of command strings they passed to
the command runner, so that "the Command Runner was never invoked" is the
statement that this trace is empty.
-/

/-! ## Character and string primitives -/

/-- Characters of a string, the representation all searches work on. -/
abbrev Chars := List Char

/-- Python's `str.lower` restricted to ASCII case folding. -/
def lowerChars (s : Chars) : Chars := s.map Char.toLower

/-- ASCII whitespace set of Python's `\s` class and `str.strip`/`str.split`. -/
def pyIsSpace (c : Char) : Bool :=
  c = ' ' || c = '\t' || c = '\n' || c = '\r' || c = '\x0b' || c = '\x0c'

/-- Word characters of the regex class `\w`, modelled as ASCII. -/
def isWordChar (c : Char) : Bool := c.isAlphanum || c = '_'

/-- Quote characters of the regex class `['\"]`. -/
def isQuoteChar (c : Char) : Bool := c = '\'' || c = '\"'

/-- Boolean prefix test on character lists. -/
def isPre : Chars → Chars → Bool
  | [], _ => true
  | _ :: _, [] => false
  | a :: as, b :: bs => a = b && isPre as bs

/-- Candidate match positions of a text: `0` to `t.length` inclusive. -/
def positions (t : Chars) : List Nat := List.range (t.length + 1)

/-- Test whether literal `l` occurs at position `j` of `t`. -/
def litAt (t l : Chars) (j : Nat) : Bool := isPre l (t.drop j)

/-- Python's substring operator `needle in hay` on character lists. -/
def containsSub (t l : Chars) : Bool := (positions t).any (litAt t l)

/-- Python's substring operator `n in h` on strings. -/
def ctns (h n : String) : Bool := containsSub h.data n.data

/-- Test that the region from `i` (inclusive) to `j` (exclusive) of `t` has
no newline, the way a `.*` gap requires. -/
def noNL (t : Chars) (i j : Nat) : Bool :=
  ((t.drop i).take (j - i)).all (fun c => c ≠ '\n')

/-- Smallest position `j ≥ i` where literal `l` occurs with a newline-free
gap from `i` to `j`, as a `.*`-separated continuation demands. -/
def findOccNL (t l : Chars) (i : Nat) : Option Nat :=
  (positions t).find? (fun j => decide (i ≤ j) && noNL t i j && litAt t l j)

/-- Match the remaining `.*`-separated literal pieces from position `i`. -/
def matchFrom (t : Chars) (i : Nat) : List Chars → Bool
  | [] => true
  | l :: ls =>
    match findOccNL t l i with
    | none => false
    | some j => matchFrom t (j + l.length) ls

/-- Search semantics of `re.search` for a pattern written as its literal
pieces split at each `.*`: some start position carries the first piece and
the remaining pieces follow, each after a newline-free gap. -/
def reSearch (t : Chars) : List Chars → Bool
  | [] => true
  | l :: ls => (positions t).any (fun j => litAt t l j && matchFrom t (j + l.length) ls)

/-- Maximal digit run of `t` starting at position `i`. -/
def digitsAt (t : Chars) (i : Nat) : Chars := (t.drop i).takeWhile Char.isDigit

/-- Maximal `\w` run of `t` starting at position `i`. -/
def wordAt (t : Chars) (i : Nat) : Chars := (t.drop i).takeWhile isWordChar

/-- Decimal value of a digit run, as Python's `int` on a digit string. -/
def digitsToNat (ds : Chars) : Nat := ds.foldl (fun a c => a * 10 + (c.toNat - 48)) 0

/-- Python's `str.strip` on character lists (whitespace on both ends). -/
def pyStripChars (s : Chars) : Chars :=
  ((s.dropWhile pyIsSpace).reverse.dropWhile pyIsSpace).reverse

/-- Python's `str.strip` on strings. -/
def pyStrip (s : String) : String := ⟨pyStripChars s.data⟩

/-- Python's `str[:n]` slice on strings. -/
def pyTake (n : Nat) (s : String) : String := ⟨s.data.take n⟩

/-- Whitespace splitting of Python's no-argument `str.split`: runs of
whitespace separate tokens, no empty tokens are produced. -/
def wsSplit : Chars → Chars → List String
  | [], acc => if acc = [] then [] else [⟨acc.reverse⟩]
  | c :: rest, acc =>
    if pyIsSpace c then
      if acc = [] then wsSplit rest [] else (⟨acc.reverse⟩ : String) :: wsSplit rest []
    else wsSplit rest (c :: acc)

/-- Python's no-argument `str.split` on strings. -/
def pySplitWS (s : String) : List String := wsSplit s.data []

/-- Python's `int(str)` conversion: surrounding whitespace allowed, one
optional sign, then one or more digits (digit grouping underscores are not
modelled).  Returns `none` where Python raises `ValueError`. -/
def pyInt (s : String) : Option Int :=
  match pyStripChars s.data with
  | '-' :: ds => if ds ≠ [] && ds.all Char.isDigit then some (-(digitsToNat ds : Int)) else none
  | '+' :: ds => if ds ≠ [] && ds.all Char.isDigit then some (digitsToNat ds : Int) else none
  | ds => if ds ≠ [] && ds.all Char.isDigit then some (digitsToNat ds : Int) else none

/-- Python truthiness of an optional string (`None` and `""` are falsy). -/
def pyTruthyStr (o : Option String) : Bool :=
  match o with
  | some s => s ≠ ""
  | none => false

/-- Python truthiness of an optional number (`None` and `0` are falsy). -/
def pyTruthyNat (o : Option Nat) : Bool :=
  match o with
  | some n => n ≠ 0
  | none => false

/-- Python rendering of an `Optional[str]` inside an f-string. -/
def pyOptStr : Option String → String
  | some s => s
  | none => "None"

/-- Python's `a or b` idiom on an optional string with a string default:
`None` and the empty string both fall through to the default. -/
def pyOrElse (o : Option String) (d : String) : String :=
  match o with
  | some s => if s = "" then d else s
  | none => d

/-! ## Data model (`error_router.py`) -/

/-- Closed category taxonomy of `ErrorCategory` in `error_router.py`; the
Python member `SYNTAX` is called `syntaxErr` here. -/
inductive ErrorCategory where
  | dependency
  | network
  | syntaxErr
  | hardware
  | permission
  | unknown
deriving DecidableEq, Repr

/-- String `value` of each `ErrorCategory` enum member. -/
def catValue : ErrorCategory → String
  | .dependency => "dependency"
  | .network => "network"
  | .syntaxErr => "syntax"
  | .hardware => "hardware"
  | .permission => "permission"
  | .unknown => "unknown"

/-- Structured error information of the dataclass `ErrorReport`; the
creation timestamp is an abstract clock value supplied by the caller. -/
structure ErrorReport where
  raw_message : String
  category : ErrorCategory
  subcategory : Option String
  file_path : Option String
  line_number : Option Nat
  suggested_fix : Option String
  auto_fixable : Bool
  timestamp : Nat
deriving DecidableEq, Repr

/-- Result of an attempted fix, the dataclass `FixResult`. -/
structure FixResult where
  success : Bool
  action_taken : String
  output : Option String
  error : Option String
deriving DecidableEq, Repr

/-- Host-introspection facts each agent computes once at construction:
`platform.system() == "Windows"` and the `/proc/cpuinfo` Raspberry Pi test. -/
structure HostConfig where
  is_windows : Bool
  is_raspberry_pi : Bool
deriving DecidableEq, Repr

/-! ## Command runner (`BaseErrorAgent.run_command`) -/

/-- Outcome of handing a command to the operating system: a completed
process with exit code and captured streams, a `TimeoutExpired`, or any
other raised exception with its message. -/
inductive CmdOutcome where
  | exited (code : Int) (stdout stderr : String)
  | timedOut
  | raised (msg : String)

/-- Oracle for the host: what happens when a command string runs under the
given timeout bound. -/
def CmdEnv := String → Nat → CmdOutcome

/-- Fixed wall-clock bound (seconds) passed to `subprocess.run`. -/
def COMMAND_TIMEOUT : Nat := 120

/-- Shallow embedding of `BaseErrorAgent.run_command`: returns
`(success, stdout-or-stderr)` on completion, `(False, "Command timed out")`
on timeout, and `(False, str(e))` on any other exception; it never raises. -/
def run_command (env : CmdEnv) (cmd : String) : Bool × String :=
  match env cmd COMMAND_TIMEOUT with
  | .exited code out err => if code = 0 then (true, out) else (false, err)
  | .timedOut => (false, "Command timed out")
  | .raised m => (false, m)

/-! ## Pattern catalogue and classifier (`ErrorRouter`) -/

namespace ErrorRouter

/-- Dependency rules of `ErrorRouter.PATTERNS`, each regex written as its
literal pieces split at `.*`. -/
def depPats : List (List String) :=
  [["pip", "error"], ["npm", "ERR"], ["ModuleNotFoundError"], ["No module named"],
   ["metadata-generation-failed"], ["Could not find a version"], ["package", "not found"]]

/-- Network rules of `ErrorRouter.PATTERNS`. -/
def netPats : List (List String) :=
  [["WinError 10048"], ["address already in use"], ["Connection refused"],
   ["ECONNREFUSED"], ["ETIMEDOUT"], ["bind", "failed"], ["port", "in use"]]

/-- Syntax rules of `ErrorRouter.PATTERNS`. -/
def synPats : List (List String) :=
  [["SyntaxError"], ["IndentationError"], ["NameError"], ["TypeError"],
   ["AttributeError"], ["ImportError"], ["ValueError"]]

/-- Hardware rules of `ErrorRouter.PATTERNS`. -/
def hwPats : List (List String) :=
  [["GPIO"], ["camera", "not found"], ["libcamera"], ["picamera"],
   ["device", "busy"], ["No such device"], ["I2C"], ["SPI"]]

/-- Permission rules of `ErrorRouter.PATTERNS`. -/
def permPats : List (List String) :=
  [["Permission denied"], ["Access", "denied"], ["EACCES"],
   ["requires", "admin"], ["Operation not permitted"]]

/-- Case-insensitive `re.search` of one catalogue rule against a message. -/
def patMatch (msg : String) (pieces : List String) : Bool :=
  reSearch (lowerChars msg.data) (pieces.map (fun p => lowerChars p.data))

/-- Ordered pattern catalogue `ErrorRouter.PATTERNS`: Python dictionaries
iterate in insertion order, so the declared order below is the evaluation
order of `_detect_category`. -/
def PATTERNS : List (ErrorCategory × List (List String)) :=
  [(.dependency, depPats), (.network, netPats), (.syntaxErr, synPats),
   (.hardware, hwPats), (.permission, permPats)]

/-- Whether any rule of the given category's pattern list matches. -/
def catMatches (msg : String) : ErrorCategory → Bool
  | .dependency => depPats.any (patMatch msg)
  | .network => netPats.any (patMatch msg)
  | .syntaxErr => synPats.any (patMatch msg)
  | .hardware => hwPats.any (patMatch msg)
  | .permission => permPats.any (patMatch msg)
  | .unknown => false

/-- Position of a category in the declared priority order (the terminal
`unknown` sits behind every listed category). -/
def catRank : ErrorCategory → Nat
  | .dependency => 0
  | .network => 1
  | .syntaxErr => 2
  | .hardware => 3
  | .permission => 4
  | .unknown => 5

/-- Loop of `ErrorRouter._detect_category` over the remaining catalogue. -/
def detectAux (msg : String) : List (ErrorCategory × List (List String)) → ErrorCategory
  | [] => .unknown
  | (c, ps) :: rest => if ps.any (patMatch msg) then c else detectAux msg rest

/-- Shallow embedding of `ErrorRouter._detect_category`: first category in
declared order with any case-insensitively matching rule, else `unknown`. -/
def detect_category (msg : String) : ErrorCategory := detectAux msg PATTERNS

/-- Shallow embedding of `ErrorRouter._detect_subcategory`. -/
def detect_subcategory (msg : String) (c : ErrorCategory) : Option String :=
  match c with
  | .dependency =>
    if ctns ⟨lowerChars msg.data⟩ "numpy" then some "numpy_compile"
    else if ctns msg "metadata-generation-failed" then some "metadata_failed"
    else if ctns msg "No module named" then some "missing_module"
    else none
  | .network =>
    if ctns msg "10048" || ctns ⟨lowerChars msg.data⟩ "address already in use" then
      some "port_in_use"
    else if ctns ⟨lowerChars msg.data⟩ "refused" then some "connection_refused"
    else none
  | .syntaxErr =>
    if ctns msg "IndentationError" then some "indentation"
    else if ctns msg "ImportError" then some "import"
    else none
  | _ => none

/-- Embedding of the regex `File "([^\x22]+)", line (\d+)` (with captures):
a literal `File "`, a nonempty greedy run of non-quote characters, the
literal `", line `, then a digit run.  Only the maximal run can precede the
closing double quote, so no backtracking case remains. -/
def locTraceback (t : Chars) : Option (Chars × Nat) :=
  (positions t).findSome? (fun j =>
    if litAt t "File \"".data j then
      let run := (t.drop (j + 6)).takeWhile (fun c => c ≠ '\"')
      if run ≠ [] && litAt t "\", line ".data (j + 6 + run.length) then
        let ds := digitsAt t (j + 6 + run.length + 8)
        if ds ≠ [] then some (run, digitsToNat ds) else none
      else none
    else none)

/-- Embedding of the regex `([^\s:]+\.py):(\d+)` (with captures).  At a
start position the group must cover the whole maximal `[^\s:]` run (the
mandatory following `:` is outside the class), so the run must end in
`.py`, be followed by `:`, then digits. -/
def locFileLine (t : Chars) : Option (Chars × Nat) :=
  (positions t).findSome? (fun j =>
    let run := (t.drop j).takeWhile (fun c => !pyIsSpace c && c ≠ ':')
    if run.length ≥ 4 && isPre ".py".data (run.drop (run.length - 3)) then
      match t.drop (j + run.length) with
      | ':' :: rest =>
        let ds := rest.takeWhile Char.isDigit
        if ds ≠ [] then some (run, digitsToNat ds) else none
      | _ => none
    else none)

/-- Shallow embedding of `ErrorRouter._extract_location`: the Python
traceback form first, then the generic `file.py:line` form. -/
def extract_location (msg : String) : Option String × Option Nat :=
  match locTraceback msg.data with
  | some (f, n) => (some ⟨f⟩, some n)
  | none =>
    match locFileLine msg.data with
    | some (f, n) => (some ⟨f⟩, some n)
    | none => (none, none)

end ErrorRouter

/-! ## Dependency agent (`dependency_agent.py`) -/

namespace DependencyAgent

/-- Embedding of the regex `No module named ['\"]([^'\"]+)['\"]` at one
position `k` (the part after the literal): an opening quote, a nonempty
greedy run of non-quote characters, a closing quote. -/
def quotedAt (t : Chars) (k : Nat) : Option Chars :=
  match t.drop k with
  | c :: rest =>
    if isQuoteChar c then
      let run := rest.takeWhile (fun d => !isQuoteChar d)
      if run ≠ [] &&
          (match rest.drop run.length with
           | e :: _ => isQuoteChar e
           | [] => false) then some run
      else none
    else none
  | [] => none

/-- Capture of the case-sensitive regex `No module named ['\"]([^'\"]+)['\"]`,
leftmost match first. -/
def noModuleQuoted (t : Chars) : Option Chars :=
  (positions t).findSome? (fun j =>
    if litAt t "No module named ".data j then quotedAt t (j + 16) else none)

/-- Capture of the case-sensitive regex `No module named (\w+)`. -/
def noModuleWord (t : Chars) : Option Chars :=
  (positions t).findSome? (fun j =>
    if litAt t "No module named ".data j then
      let w := wordAt t (j + 16)
      if w ≠ [] then some w else none
    else none)

/-- Capture of the case-sensitive regex
`ModuleNotFoundError:.*['\"]([^'\"]+)['\"]`: after the literal, the greedy
`.*` backtracks from the right, so the rightmost quoted group inside the
newline-free region is captured. -/
def mnfeQuoted (t : Chars) : Option Chars :=
  (positions t).findSome? (fun j =>
    if litAt t "ModuleNotFoundError:".data j then
      ((positions t).reverse).findSome? (fun k =>
        if decide (j + 20 ≤ k) && noNL t (j + 20) k then quotedAt t k else none)
    else none)

/-- Shallow embedding of `DependencyAgent._extract_module_name`: the three
patterns in order, then `module.split('.')[0]` on the capture. -/
def extract_module_name (msg : String) : Option String :=
  match noModuleQuoted msg.data <|> noModuleWord msg.data <|> mnfeQuoted msg.data with
  | some m => some ⟨m.takeWhile (fun c => c ≠ '.')⟩
  | none => none

/-- Capture of the regex `error:.*package[:\s]+(\w+)` (IGNORECASE, applied
to lowered text): greedy `.*` picks the rightmost `package` whose separator
run and word run complete the match. -/
def pkgErrorPackage (t : Chars) : Option Chars :=
  (positions t).findSome? (fun j =>
    if litAt t "error:".data j then
      ((positions t).reverse).findSome? (fun k =>
        if decide (j + 6 ≤ k) && noNL t (j + 6) k && litAt t "package".data k then
          let sep := (t.drop (k + 7)).takeWhile (fun c => c = ':' || pyIsSpace c)
          if sep ≠ [] then
            let w := wordAt t (k + 7 + sep.length)
            if w ≠ [] then some w else none
          else none
        else none)
    else none)

/-- Capture of the regex `╰─>\s*(\w+)` applied to lowered text. -/
def pkgArrowPackage (t : Chars) : Option Chars :=
  (positions t).findSome? (fun j =>
    if litAt t "╰─>".data j then
      let sp := (t.drop (j + 3)).takeWhile pyIsSpace
      let w := wordAt t (j + 3 + sp.length)
      if w ≠ [] then some w else none
    else none)

/-- Capture of the regex `Building wheel for (\w+)` (IGNORECASE, applied to
lowered text). -/
def pkgWheelPackage (t : Chars) : Option Chars :=
  (positions t).findSome? (fun j =>
    if litAt t "building wheel for ".data j then
      let w := wordAt t (j + 19)
      if w ≠ [] then some w else none
    else none)

/-- Known-package fallback list of `_extract_package_name`. -/
def knownPackages : List String :=
  ["numpy", "opencv", "pillow", "cryptography", "scipy", "pandas"]

/-- Shallow embedding of `DependencyAgent._extract_package_name`.  The code
lowercases each regex capture; searching the lowered text yields the same
string, and the verbatim known-package scan is on the lowered message. -/
def extract_package_name (msg : String) : Option String :=
  let t := lowerChars msg.data
  match pkgErrorPackage t <|> pkgArrowPackage t <|> pkgWheelPackage t with
  | some w => some ⟨w⟩
  | none => knownPackages.find? (fun p => containsSub t p.data)

/-- Entry `PACKAGE_FIXES[package].get("metadata_failed")`: only `numpy` and
`opencv-python` carry a `metadata_failed` fix. -/
def metadataFixFor (p : String) : Option String :=
  if p = "numpy" then some "pip install numpy --only-binary=all"
  else if p = "opencv-python" then some "pip install opencv-python-headless --only-binary=all"
  else none

/-- Body of `DependencyAgent.suggest_fix` over the raw message.  The
extracted module name passes Python's `if module:` truthiness guard, so
both a failed extraction and an extraction whose `split('.')[0]` is the
empty string fall through to the generic advice. -/
def suggestImpl (msg : String) : String :=
  let e : String := ⟨lowerChars msg.data⟩
  if ctns e "no module named" || ctns e "modulenotfounderror" then
    let module := extract_module_name msg
    if pyTruthyStr module then "pip install " ++ pyOptStr module
    else "Install the missing module with pip"
  else if ctns e "metadata-generation-failed" then
    match extract_package_name msg with
    | some p =>
      match metadataFixFor p with
      | some f => f
      | none => "pip install " ++ p ++ " --only-binary=all"
    | none => "pip install None --only-binary=all"
  else if ctns e "version" && ctns e "conflict" then
    "pip install --upgrade <package> or check requirements.txt for conflicts"
  else if ctns e "pip" then
    "Try: pip install --upgrade pip, then retry the install"
  else "Check package name and try reinstalling"

/-- Shallow embedding of `DependencyAgent.suggest_fix` (reads only the
report's raw message). -/
def suggest_fix (r : ErrorReport) : String := suggestImpl r.raw_message

/-- Allow-list of `DependencyAgent.can_auto_fix`. -/
def safeFixes : List String := ["numpy_compile", "metadata_failed", "missing_module"]

/-- Body of `DependencyAgent.can_auto_fix` over the subcategory: a `None`
subcategory is never in the allow-list. -/
def canAutoImpl (sub : Option String) : Bool :=
  match sub with
  | some s => safeFixes.contains s
  | none => false

/-- Shallow embedding of `DependencyAgent.can_auto_fix`. -/
def can_auto_fix (r : ErrorReport) : Bool := canAutoImpl r.subcategory

/-- Shallow embedding of `DependencyAgent.execute_fix`; the second
component lists the commands handed to the command runner. -/
def execute_fix (env : CmdEnv) (r : ErrorReport) : FixResult × List String :=
  let cmd := suggest_fix r
  if cmd = "" || cmd.startsWith "Check" then
    (⟨false, "none", none, some "Could not determine fix command"⟩, [])
  else
    let res := run_command env cmd
    (⟨res.1, cmd, if res.1 then some res.2 else none, if res.1 then none else some res.2⟩,
     [cmd])

end DependencyAgent

/-! ## Network agent (`network_agent.py`) -/

namespace NetworkAgent

/-- Capture of the regex `port[:\s]+(\d+)` (IGNORECASE, applied to lowered
text): the greedy separator-class run must be maximal because a digit is
not in the class. -/
def portAfterWord (t : Chars) : Option Nat :=
  (positions t).findSome? (fun j =>
    if litAt t "port".data j then
      let sep := (t.drop (j + 4)).takeWhile (fun c => c = ':' || pyIsSpace c)
      if sep ≠ [] then
        let ds := digitsAt t (j + 4 + sep.length)
        if ds ≠ [] then some (digitsToNat ds) else none
      else none
    else none)

/-- Capture of the regex `:(\d+)\)`: a colon, a maximal digit run, then a
closing parenthesis. -/
def portColonParen (t : Chars) : Option Nat :=
  (positions t).findSome? (fun j =>
    match t.drop j with
    | ':' :: rest =>
      let ds := rest.takeWhile Char.isDigit
      if ds ≠ [] &&
          (match rest.drop ds.length with
           | ')' :: _ => true
           | _ => false) then some (digitsToNat ds)
      else none
    | _ => none)

/-- Greedy tail `.*:(\d+)` from position `i`: the rightmost colon in the
newline-free region that is followed by at least one digit. -/
def colonDigitsGreedy (t : Chars) (i : Nat) : Option Nat :=
  ((positions t).reverse).findSome? (fun k =>
    if decide (i ≤ k) && noNL t i k then
      match t.drop k with
      | ':' :: rest =>
        let ds := rest.takeWhile Char.isDigit
        if ds ≠ [] then some (digitsToNat ds) else none
      | _ => none
    else none)

/-- Capture of the regex `address.*:(\d+)` (IGNORECASE, lowered text). -/
def portAfterAddress (t : Chars) : Option Nat :=
  (positions t).findSome? (fun j =>
    if litAt t "address".data j then colonDigitsGreedy t (j + 7) else none)

/-- Capture of the regex `bind.*:(\d+)` (IGNORECASE, lowered text). -/
def portAfterBind (t : Chars) : Option Nat :=
  (positions t).findSome? (fun j =>
    if litAt t "bind".data j then colonDigitsGreedy t (j + 4) else none)

/-- Valid TCP port bound checked by `_extract_port`. -/
def inPortRange (p : Nat) : Bool := decide (1 ≤ p) && decide (p ≤ 65535)

/-- Ordered extraction attempts of `_extract_port`, one per pattern. -/
def portExtractionList (msg : String) : List (Option Nat) :=
  let t := lowerChars msg.data
  [portAfterWord t, portColonParen t, portAfterAddress t, portAfterBind t]

/-- Loop of `_extract_port` over the per-pattern extractions: an extraction
outside 1–65535 is skipped like a non-match. -/
def tryPorts : List (Option Nat) → Option Nat
  | [] => none
  | o :: rest =>
    match o with
    | some p => if inPortRange p then some p else tryPorts rest
    | none => tryPorts rest

/-- Shallow embedding of `NetworkAgent._extract_port`: the four patterns in
order, then the hard-coded default ports when their digits appear verbatim. -/
def extract_port (msg : String) : Option Nat :=
  match tryPorts (portExtractionList msg) with
  | some p => some p
  | none =>
    if ctns msg "8000" then some 8000
    else if ctns msg "3000" then some 3000
    else none

/-- Body of `NetworkAgent.suggest_fix` over the platform flag and the raw
message. -/
def suggestImpl (isWin : Bool) (msg : String) : String :=
  let e : String := ⟨lowerChars msg.data⟩
  if ctns msg "10048" || ctns e "address already in use" then
    match extract_port msg with
    | some port =>
      if isWin then
        "netstat -ano | findstr :" ++ toString port ++ " to find PID, then taskkill /PID <pid> /F"
      else
        "lsof -i :" ++ toString port ++ " to find process, then kill -9 <pid>"
    | none => "Find and kill the process using the port, or use a different port"
  else if ctns e "connection refused" || ctns e "econnrefused" then
    "Ensure the target service is running and accepting connections"
  else if ctns e "timeout" || ctns e "etimedout" then
    "Check network connectivity and firewall rules"
  else if ctns e "getaddrinfo" || ctns e "name resolution" then
    "Check DNS settings and network connectivity"
  else "Check network configuration and firewall settings"

/-- Shallow embedding of `NetworkAgent.suggest_fix`. -/
def suggest_fix (cfg : HostConfig) (r : ErrorReport) : String :=
  suggestImpl cfg.is_windows r.raw_message

/-- Shallow embedding of `NetworkAgent.can_auto_fix`: only `port_in_use`. -/
def can_auto_fix (r : ErrorReport) : Bool := r.subcategory = some "port_in_use"

/-- Parse of the Windows `netstat` output in `_find_process_on_port`: first
line with at least five whitespace tokens containing `LISTENING` whose last
token parses as an integer. -/
def winParsePid (out : String) : Option Int :=
  ((pyStrip out).splitOn "\n").findSome? (fun line =>
    let parts := pySplitWS line
    if decide (parts.length ≥ 5) && ctns line "LISTENING" then
      pyInt (parts.getLastD "")
    else none)

/-- Parse of the POSIX `lsof -t` output in `_find_process_on_port`: integer
value of the first line, `None` on `ValueError`. -/
def posixParsePid (out : String) : Option Int :=
  pyInt (((pyStrip out).splitOn "\n").headD "")

/-- Shallow embedding of `NetworkAgent._find_process_on_port`, returning
the parsed PID and the command handed to the command runner. -/
def find_process_on_port (cfg : HostConfig) (env : CmdEnv) (port : Nat) :
    Option Int × List String :=
  let cmd :=
    if cfg.is_windows then "netstat -ano | findstr :" ++ toString port
    else "lsof -t -i:" ++ toString port
  let res := run_command env cmd
  if !res.1 || res.2 = "" then (none, [cmd])
  else if cfg.is_windows then (winParsePid res.2, [cmd])
  else (posixParsePid res.2, [cmd])

/-- Shallow embedding of `NetworkAgent._fix_port_conflict`. -/
def fix_port_conflict (cfg : HostConfig) (env : CmdEnv) (r : ErrorReport) :
    FixResult × List String :=
  match extract_port r.raw_message with
  | none => (⟨false, "none", none, some "Could not extract port number from error"⟩, [])
  | some port =>
    let found := find_process_on_port cfg env port
    match found.1 with
    | none =>
      (⟨false, "Searched for process on port " ++ toString port, none,
        some "Could not find process using port"⟩, found.2)
    | some pid =>
      let killCmd :=
        if cfg.is_windows then "taskkill /PID " ++ toString pid ++ " /F"
        else "kill -9 " ++ toString pid
      let res := run_command env killCmd
      if res.1 then
        (⟨true, "Killed process " ++ toString pid ++ " on port " ++ toString port,
          some res.2, none⟩, found.2 ++ [killCmd])
      else
        (⟨false, "Attempted to kill process " ++ toString pid, none, some res.2⟩,
         found.2 ++ [killCmd])

/-- Shallow embedding of `NetworkAgent.execute_fix`. -/
def execute_fix (cfg : HostConfig) (env : CmdEnv) (r : ErrorReport) :
    FixResult × List String :=
  if r.subcategory = some "port_in_use" then fix_port_conflict cfg env r
  else (⟨false, "none", none, some "Manual intervention required"⟩, [])

end NetworkAgent

/-! ## Syntax agent (`syntax_agent.py`) -/

namespace SyntaxAgent

/-- Ordered table `SyntaxAgent.COMMON_FIXES` (a Python dict iterated in
insertion order); each regex key is written as its literal pieces split at
`.*` and searched case-insensitively. -/
def COMMON_FIXES : List (List String × String) :=
  [(["unexpected EOF"], "Check for missing closing brackets, parentheses, or quotes"),
   (["invalid syntax"], "Check for typos, missing colons, or incorrect operators"),
   (["expected an indented block"], "Add proper indentation after if/for/def/class statements"),
   (["unindent does not match"], "Fix inconsistent indentation (spaces vs tabs)"),
   (["name ", " is not defined"], "Check variable spelling or add missing import"),
   (["has no attribute"], "Check attribute name spelling or object type"),
   (["object is not callable"], "Remove parentheses or check if object is a function"),
   (["missing ", " required positional argument"], "Add the required argument to the function call"),
   (["takes ", " positional arguments but ", " were given"], "Remove extra arguments from function call"),
   (["cannot import name"], "Check import path and module structure"),
   (["circular import"], "Restructure imports or use lazy imports")]

/-- Body of `SyntaxAgent._format_location` over the two location fields,
with Python truthiness (empty path and line 0 count as absent). -/
def formatLocationImpl (fp : Option String) (ln : Option Nat) : String :=
  if pyTruthyStr fp && pyTruthyNat ln then
    " at " ++ pyOptStr fp ++ ":" ++ toString (ln.getD 0)
  else if pyTruthyStr fp then " in " ++ pyOptStr fp
  else if pyTruthyNat ln then " at line " ++ toString (ln.getD 0)
  else ""

/-- Shallow embedding of `SyntaxAgent._format_location`. -/
def format_location (r : ErrorReport) : String :=
  formatLocationImpl r.file_path r.line_number

/-- Shallow embedding of `SyntaxAgent._analyze_syntax_error` (case-sensitive
substring checks on the raw message). -/
def analyzeSyntaxErr (e : String) (loc : String) : String :=
  if ctns e "EOL while scanning string" then "Missing closing quote for string" ++ loc
  else if ctns e "unexpected EOF" then "Missing closing bracket, parenthesis, or quote" ++ loc
  else if ctns e "invalid character" then
    "Remove invalid character (possibly copied from web/doc)" ++ loc
  else if ctns e "f-string" then
    "Check f-string syntax - no backslashes or nested quotes" ++ loc
  else "Check syntax near" ++ loc

/-- Shallow embedding of `SyntaxAgent._analyze_indentation_error`. -/
def analyzeIndentation (e : String) (loc : String) : String :=
  if ctns e "expected an indented block" then
    "Add 4 spaces of indentation after the colon" ++ loc
  else if ctns e "unindent does not match" then
    "Fix indentation level - ensure consistent use of spaces (not tabs)" ++ loc
  else if ctns e "unexpected indent" then "Remove extra indentation" ++ loc
  else "Fix indentation" ++ loc ++ " - use 4 spaces per level"

/-- Capture of the regex `cannot import name ['\"]?(\w+)['\"]?`: an optional
quote (taken greedily when present), then a nonempty word run. -/
def cannotImportName (t : Chars) : Option Chars :=
  (positions t).findSome? (fun j =>
    if litAt t "cannot import name ".data j then
      match t.drop (j + 19) with
      | c :: rest =>
        if isQuoteChar c then
          let w := rest.takeWhile isWordChar
          if w ≠ [] then some w else none
        else
          let w := wordAt t (j + 19)
          if w ≠ [] then some w else none
      | [] => none
    else none)

/-- Capture of the regex `No module named ['\"]?([^'\"]+)['\"]?`: an
optional quote, then a nonempty greedy run of non-quote characters (the
closing quote is optional, so it adds no constraint). -/
def noModuleOptQuoted (t : Chars) : Option Chars :=
  (positions t).findSome? (fun j =>
    if litAt t "No module named ".data j then
      match t.drop (j + 16) with
      | c :: rest =>
        if isQuoteChar c then
          let run := rest.takeWhile (fun d => !isQuoteChar d)
          if run ≠ [] then some run else none
        else
          let run := (t.drop (j + 16)).takeWhile (fun d => !isQuoteChar d)
          if run ≠ [] then some run else none
      | [] => none
    else none)

/-- Shallow embedding of `SyntaxAgent._analyze_import_error`. -/
def analyzeImport (e : String) : String :=
  match cannotImportName e.data with
  | some name =>
    "'" ++ (⟨name⟩ : String) ++ "' doesn't exist in the module. Check spelling or module version."
  | none =>
    match noModuleOptQuoted e.data with
    | some m =>
      "Install missing module: pip install " ++ (⟨m.takeWhile (fun c => c ≠ '.')⟩ : String)
    | none => "Check import statement and module installation"

/-- Shallow embedding of `SyntaxAgent._analyze_type_error`. -/
def analyzeType (e : String) : String :=
  if ctns e "NoneType" then "A variable is None when it shouldn't be. Add a null check."
  else if ctns e "not subscriptable" then "Can't use [] on this type. Check the object type."
  else if ctns e "not iterable" then
    "Can't iterate over this object. Check if it's a list/tuple/dict."
  else if ctns e "argument" then "Wrong number or type of arguments passed to function."
  else "Type mismatch - check variable types"

/-- Captures of the regex `'(\w+)' object has no attribute '(\w+)'`. -/
def attrPair (t : Chars) : Option (Chars × Chars) :=
  (positions t).findSome? (fun j =>
    match t.drop j with
    | '\'' :: rest =>
      let w1 := rest.takeWhile isWordChar
      if w1 ≠ [] && litAt t "' object has no attribute '".data (j + 1 + w1.length) then
        let w2 := wordAt t (j + 1 + w1.length + 27)
        if w2 ≠ [] &&
            (match t.drop (j + 1 + w1.length + 27 + w2.length) with
             | '\'' :: _ => true
             | _ => false) then some (w1, w2)
        else none
      else none
    | _ => none)

/-- Shallow embedding of `SyntaxAgent._analyze_attribute_error`. -/
def analyzeAttribute (e : String) : String :=
  match attrPair e.data with
  | some p =>
    "'" ++ (⟨p.1⟩ : String) ++ "' doesn't have '" ++ (⟨p.2⟩ : String) ++
      "'. Check spelling or object type."
  | none => "Object doesn't have this attribute. Check object type and attribute name."

/-- Capture of the regex `name ['\"]?(\w+)['\"]? is not defined`: after the
word run, a closing quote is consumed when present (when it is present but
the trailing literal still fails, the quoteless reading fails as well, so
one greedy attempt is faithful). -/
def nameNotDefined (t : Chars) : Option Chars :=
  (positions t).findSome? (fun j =>
    if litAt t "name ".data j then
      match t.drop (j + 5) with
      | c :: rest =>
        if isQuoteChar c then
          let w := rest.takeWhile isWordChar
          if w ≠ [] then
            let i2 := j + 6 + w.length
            let i3 :=
              match t.drop i2 with
              | d :: _ => if isQuoteChar d then i2 + 1 else i2
              | [] => i2
            if litAt t " is not defined".data i3 then some w else none
          else none
        else
          let w := wordAt t (j + 5)
          if w ≠ [] then
            let i2 := j + 5 + w.length
            let i3 :=
              match t.drop i2 with
              | d :: _ => if isQuoteChar d then i2 + 1 else i2
              | [] => i2
            if litAt t " is not defined".data i3 then some w else none
          else none
      | [] => none
    else none)

/-- Shallow embedding of `SyntaxAgent._analyze_name_error`. -/
def analyzeName (e : String) : String :=
  match nameNotDefined e.data with
  | some name =>
    "'" ++ (⟨name⟩ : String) ++ "' is not defined. Check spelling, add import, or define it first."
  | none => "Variable not defined. Check spelling or add import statement."

/-- Body of `SyntaxAgent.suggest_fix` over the raw message and the two
location fields. -/
def suggestImpl (e : String) (fp : Option String) (ln : Option Nat) : String :=
  let loc := formatLocationImpl fp ln
  match COMMON_FIXES.findSome? (fun pf =>
      if reSearch (lowerChars e.data) (pf.1.map (fun p => lowerChars p.data)) then some pf.2
      else none) with
  | some f => f ++ loc
  | none =>
    if ctns e "SyntaxError" then analyzeSyntaxErr e loc
    else if ctns e "IndentationError" then analyzeIndentation e loc
    else if ctns e "ImportError" || ctns e "ModuleNotFoundError" then analyzeImport e
    else if ctns e "TypeError" then analyzeType e
    else if ctns e "AttributeError" then analyzeAttribute e
    else if ctns e "NameError" then analyzeName e
    else "Review the error at " ++ loc

/-- Shallow embedding of `SyntaxAgent.suggest_fix`. -/
def suggest_fix (r : ErrorReport) : String :=
  suggestImpl r.raw_message r.file_path r.line_number

/-- Shallow embedding of `SyntaxAgent.can_auto_fix`: always conservative. -/
def can_auto_fix (_ : ErrorReport) : Bool := false

/-- Shallow embedding of `SyntaxAgent._generate_diagnostics` (Python `or`
falls back on a falsy subcategory; path and line lines appear only when
truthy; the raw message is truncated to 500 characters). -/
def generate_diagnostics (r : ErrorReport) : String :=
  String.intercalate "\n"
    (["Error Type: " ++ pyOrElse r.subcategory "Unknown",
      "Category: " ++ catValue r.category]
     ++ (if pyTruthyStr r.file_path then ["File: " ++ pyOptStr r.file_path] else [])
     ++ (if pyTruthyNat r.line_number then ["Line: " ++ toString (r.line_number.getD 0)] else [])
     ++ ["\nRaw Error:\n" ++ pyTake 500 r.raw_message])

/-- Shallow embedding of `SyntaxAgent.execute_fix`: purely diagnostic, no
command is ever run. -/
def execute_fix (r : ErrorReport) : FixResult × List String :=
  (⟨false, "diagnostic",
    some ("Suggestion: " ++ suggest_fix r ++ "\n\nDiagnostics:\n" ++ generate_diagnostics r),
    some "Manual code fix required"⟩, [])

end SyntaxAgent

/-! ## Hardware agent (`hardware_agent.py`) -/

namespace HardwareAgent

/-- Shallow embedding of `HardwareAgent._suggest_camera_fix` over the
lowered message. -/
def suggestCamera (e : String) : String :=
  if ctns e "not found" || ctns e "no cameras" then
    "Check camera ribbon cable connection and enable camera in raspi-config"
  else if ctns e "busy" || ctns e "in use" then
    "Another process is using the camera. Kill it with: sudo pkill -f libcamera"
  else if ctns e "permission" || ctns e "access" then
    "Add user to video group: sudo usermod -a -G video $USER"
  else if ctns e "mmal" then
    "Legacy camera. Enable legacy camera in raspi-config or use libcamera"
  else
    "Check camera connection: 1) Power off Pi, 2) Reseat ribbon cable, 3) Enable camera in raspi-config"

/-- Shallow embedding of `HardwareAgent._suggest_gpio_fix`. -/
def suggestGpio (e : String) : String :=
  if ctns e "permission" || ctns e "access" then
    "Run with sudo or add user to gpio group: sudo usermod -a -G gpio $USER"
  else if ctns e "busy" || ctns e "in use" then
    "GPIO pin already in use. Check for conflicting processes."
  else "Check if running on Raspberry Pi. GPIO not available on other systems."

/-- Shallow embedding of `HardwareAgent._suggest_i2c_fix`. -/
def suggestI2c (e : String) : String :=
  if ctns e "no such file" || ctns e "not found" then
    "Enable I2C in raspi-config: sudo raspi-config -> Interface Options -> I2C"
  else if ctns e "permission" then
    "Add user to i2c group: sudo usermod -a -G i2c $USER"
  else if ctns e "no device" || ctns e "no ack" then
    "Check I2C device address with: i2cdetect -y 1"
  else "Check I2C wiring and device address"

/-- Shallow embedding of `HardwareAgent._suggest_spi_fix`. -/
def suggestSpi (e : String) : String :=
  if ctns e "no such file" || ctns e "not found" then
    "Enable SPI in raspi-config: sudo raspi-config -> Interface Options -> SPI"
  else if ctns e "permission" then
    "Add user to spi group: sudo usermod -a -G spi $USER"
  else "Check SPI wiring and enable SPI in raspi-config"

/-- Shallow embedding of `HardwareAgent._suggest_device_fix`. -/
def suggestDevice (e : String) : String :=
  if ctns e "not found" || ctns e "no such" then
    "Device not detected. Check physical connection and power."
  else if ctns e "busy" then "Device in use by another process. Check running processes."
  else if ctns e "permission" then
    "Permission denied. Run with sudo or add user to appropriate group."
  else "Check device connection, power, and drivers"

/-- Body of `HardwareAgent.suggest_fix` over the raw message. -/
def suggestImpl (msg : String) : String :=
  let e : String := ⟨lowerChars msg.data⟩
  if ["camera", "libcamera", "picamera", "mmal"].any (fun w => ctns e w) then
    suggestCamera e
  else if ctns e "gpio" then suggestGpio e
  else if ctns e "i2c" then suggestI2c e
  else if ctns e "spi" then suggestSpi e
  else if ctns e "device" then suggestDevice e
  else "Check hardware connections and ensure drivers are installed"

/-- Shallow embedding of `HardwareAgent.suggest_fix`. -/
def suggest_fix (r : ErrorReport) : String := suggestImpl r.raw_message

/-- Body of `HardwareAgent.can_auto_fix`: only busy/in-use conditions. -/
def canAutoImpl (msg : String) : Bool :=
  let e : String := ⟨lowerChars msg.data⟩
  ctns e "busy" || ctns e "in use"

/-- Shallow embedding of `HardwareAgent.can_auto_fix`. -/
def can_auto_fix (r : ErrorReport) : Bool := canAutoImpl r.raw_message

/-- Fixed kill list of `HardwareAgent._kill_camera_processes`. -/
def cameraKillCmds : List String :=
  ["sudo pkill -f libcamera", "sudo pkill -f raspistill",
   "sudo pkill -f raspivid", "sudo pkill -f picamera"]

/-- Shallow embedding of `HardwareAgent._kill_camera_processes`: every
command in the list is attempted, the succeeding ones are collected. -/
def kill_camera_processes (env : CmdEnv) : FixResult × List String :=
  let killed := cameraKillCmds.filter (fun c => (run_command env c).1)
  if killed ≠ [] then
    (⟨true, "Killed camera processes: " ++ String.intercalate ", " killed,
      some "Camera should now be available", none⟩, cameraKillCmds)
  else
    (⟨false, "Attempted to kill camera processes", none,
      some "No camera processes found to kill"⟩, cameraKillCmds)

/-- Shallow embedding of `HardwareAgent._free_gpio`. -/
def free_gpio : FixResult :=
  ⟨false, "diagnostic", none,
   some "GPIO conflict requires identifying and stopping the conflicting process"⟩

/-- Probe commands of `HardwareAgent._run_diagnostics` on a Raspberry Pi. -/
def diagCmds : List String :=
  ["libcamera-hello --list-cameras 2>&1 || echo 'libcamera not available'",
   "ls /dev/i2c* 2>&1 || echo 'I2C not enabled'",
   "ls /dev/spidev* 2>&1 || echo 'SPI not enabled'",
   "ls /dev/gpiomem 2>&1 || echo 'GPIO not available'"]

/-- Shallow embedding of `HardwareAgent._run_diagnostics`, also returning
the commands handed to the command runner. -/
def run_diagnostics (cfg : HostConfig) (env : CmdEnv) : String × List String :=
  if !cfg.is_raspberry_pi then
    ("WARNING: Not running on Raspberry Pi\nHardware features require Raspberry Pi", [])
  else
    let o1 := (run_command env (diagCmds.getD 0 "")).2
    let o2 := (run_command env (diagCmds.getD 1 "")).2
    let o3 := (run_command env (diagCmds.getD 2 "")).2
    let o4 := (run_command env (diagCmds.getD 3 "")).2
    (String.intercalate "\n"
      ["Running on Raspberry Pi",
       "\nCamera check:\n" ++ pyTake 200 o1,
       "\nI2C devices: " ++ pyStrip o2,
       "\nSPI devices: " ++ pyStrip o3,
       "\nGPIO: " ++ pyStrip o4], diagCmds)

/-- Shallow embedding of `HardwareAgent.execute_fix`. -/
def execute_fix (cfg : HostConfig) (env : CmdEnv) (r : ErrorReport) :
    FixResult × List String :=
  let e : String := ⟨lowerChars r.raw_message.data⟩
  if ctns e "camera" && (ctns e "busy" || ctns e "in use") then
    kill_camera_processes env
  else if ctns e "gpio" && ctns e "busy" then (free_gpio, [])
  else
    let diag := run_diagnostics cfg env
    (⟨false, "diagnostic",
      some ("Suggestion: " ++ suggest_fix r ++ "\n\nDiagnostics:\n" ++ diag.1),
      some "Manual hardware intervention may be required"⟩, diag.2)

end HardwareAgent

/-! ## Dispatcher (`ErrorRouter.analyze`, `ErrorRouter.fix`, history) -/

namespace ErrorRouter

/-- Categories with a registered agent: `_register_agents` installs exactly
the Dependency, Network, Syntax and Hardware agents; Permission and Unknown
never get one. -/
def registered : ErrorCategory → Bool
  | .dependency => true
  | .network => true
  | .syntaxErr => true
  | .hardware => true
  | _ => false

/-- Report as first constructed by `analyze`, before agent enrichment:
suggestion empty, auto-fixable defaulted to false. -/
def baseReport (msg : String) (t : Nat) : ErrorReport :=
  { raw_message := msg
    category := detect_category msg
    subcategory := detect_subcategory msg (detect_category msg)
    file_path := (extract_location msg).1
    line_number := (extract_location msg).2
    suggested_fix := none
    auto_fixable := false
    timestamp := t }

/-- Agent lookup of `self.agents[category].suggest_fix`: `none` exactly
when the category has no registered agent. -/
def agentSuggest (cfg : HostConfig) : ErrorCategory → ErrorReport → Option String
  | .dependency, r => some (DependencyAgent.suggest_fix r)
  | .network, r => some (NetworkAgent.suggest_fix cfg r)
  | .syntaxErr, r => some (SyntaxAgent.suggest_fix r)
  | .hardware, r => some (HardwareAgent.suggest_fix r)
  | _, _ => none

/-- Agent lookup of `self.agents[category].can_auto_fix`. -/
def agentCanAuto : ErrorCategory → ErrorReport → Option Bool
  | .dependency, r => some (DependencyAgent.can_auto_fix r)
  | .network, r => some (NetworkAgent.can_auto_fix r)
  | .syntaxErr, r => some (SyntaxAgent.can_auto_fix r)
  | .hardware, r => some (HardwareAgent.can_auto_fix r)
  | _, _ => none

/-- Agent lookup of `self.agents[category].execute_fix`, with the command
trace of the execution. -/
def agentExecute (cfg : HostConfig) (env : CmdEnv) :
    ErrorCategory → ErrorReport → Option (FixResult × List String)
  | .dependency, r => some (DependencyAgent.execute_fix env r)
  | .network, r => some (NetworkAgent.execute_fix cfg env r)
  | .syntaxErr, r => some (SyntaxAgent.execute_fix r)
  | .hardware, r => some (HardwareAgent.execute_fix cfg env r)
  | _, _ => none

/-- Report produced by one `ErrorRouter.analyze` call at clock value `t`:
classification, then enrichment by the registered agent when one exists. -/
def mkReport (cfg : HostConfig) (msg : String) (t : Nat) : ErrorReport :=
  let base := baseReport msg t
  match agentSuggest cfg base.category base, agentCanAuto base.category base with
  | some s, some b => { base with suggested_fix := some s, auto_fixable := b }
  | _, _ => base

/-- Shallow embedding of `ErrorRouter.analyze`: returns the report and the
history with the report appended. -/
def analyze (cfg : HostConfig) (hist : List ErrorReport) (msg : String) (t : Nat) :
    ErrorReport × List ErrorReport :=
  let r := mkReport cfg msg t
  (r, hist ++ [r])

/-- Shallow embedding of `ErrorRouter.fix`; the second component is the
list of commands the run handed to the command runner (empty on every
early return). -/
def fix (cfg : HostConfig) (env : CmdEnv) (msg : String) (auto_approve : Bool) (t : Nat) :
    FixResult × List String :=
  let r := mkReport cfg msg t
  if r.category = .unknown then
    (⟨false, "none", none, some "Could not categorize error"⟩, [])
  else
    match agentExecute cfg env r.category r with
    | none =>
      (⟨false, "none", none, some ("No agent registered for " ++ catValue r.category)⟩, [])
    | some ex =>
      if !r.auto_fixable && !auto_approve then
        (⟨false, "none", none, some ("Manual fix required: " ++ pyOptStr r.suggested_fix)⟩, [])
      else ex

/-- Shallow embedding of `ErrorRouter.get_history`, the Python slice
`error_history[-limit:]` with full Python index normalisation. -/
def get_history (hist : List ErrorReport) (limit : Int) : List ErrorReport :=
  let start : Int := -limit
  let norm : Nat :=
    if start < 0 then hist.length - min hist.length start.natAbs
    else min start.toNat hist.length
  hist.drop norm

end ErrorRouter

/-! ## Helper lemmas -/

theorem isPre_map {f : Char → Char} : ∀ {l s : Chars}, isPre l s = true →
    isPre (l.map f) (s.map f) = true
  | [], _, _ => rfl
  | _ :: _, _ :: _, h => by
    simp only [isPre, Bool.and_eq_true, decide_eq_true_eq] at h
    simp only [List.map_cons, isPre, Bool.and_eq_true, decide_eq_true_eq]
    exact ⟨congrArg f h.1, isPre_map h.2⟩

theorem containsSub_map_lower {t l : Chars} (h : containsSub t l = true) :
    containsSub (lowerChars t) (lowerChars l) = true := by
  simp only [containsSub, List.any_eq_true] at h ⊢
  obtain ⟨j, hj, hlit⟩ := h
  refine ⟨j, ?_, ?_⟩
  · simpa [positions, lowerChars] using (by simpa [positions] using hj)
  · unfold litAt at hlit ⊢
    unfold lowerChars
    rw [← List.map_drop]
    exact isPre_map hlit

theorem matchFrom_nil (t : Chars) (i : Nat) : matchFrom t i [] = true := rfl

theorem reSearch_single (t l : Chars) : reSearch t [l] = containsSub t l := by
  simp [reSearch, containsSub, matchFrom]

theorem patMatch_single (msg lit : String) :
    ErrorRouter.patMatch msg [lit] =
      containsSub (lowerChars msg.data) (lowerChars lit.data) := by
  simp [ErrorRouter.patMatch, reSearch_single]

theorem ctns_patMatch_single {msg lit : String} (h : ctns msg lit = true) :
    ErrorRouter.patMatch msg [lit] = true := by
  rw [patMatch_single]
  exact containsSub_map_lower h

namespace ErrorRouter

theorem detectAux_eq_find (msg : String) :
    ∀ l : List (ErrorCategory × List (List String)),
      detectAux msg l =
        ((l.find? (fun e => e.2.any (patMatch msg))).map Prod.fst).getD .unknown
  | [] => rfl
  | (c, ps) :: rest => by
    cases h : ps.any (patMatch msg) <;>
      simp [detectAux, List.find?, h, detectAux_eq_find msg rest]

/-- Helper characterization used by report-shape lemmas: which suggestion
`analyze` installs, as a function of message and host configuration. -/
def suggOf (cfg : HostConfig) (msg : String) : Option String :=
  agentSuggest cfg (detect_category msg) (baseReport msg 0)

/-- Helper characterization of the installed auto-fixable flag. -/
def autoOf (_cfg : HostConfig) (msg : String) : Bool :=
  (agentCanAuto (detect_category msg) (baseReport msg 0)).getD false

theorem mkReport_spec (cfg : HostConfig) (msg : String) (t : Nat) :
    mkReport cfg msg t =
      { raw_message := msg
        category := detect_category msg
        subcategory := detect_subcategory msg (detect_category msg)
        file_path := (extract_location msg).1
        line_number := (extract_location msg).2
        suggested_fix := suggOf cfg msg
        auto_fixable := autoOf cfg msg
        timestamp := t } := by
  unfold mkReport suggOf autoOf
  cases h : detect_category msg <;>
    simp [baseReport, agentSuggest, agentCanAuto, h,
      DependencyAgent.suggest_fix, DependencyAgent.can_auto_fix,
      NetworkAgent.suggest_fix, NetworkAgent.can_auto_fix,
      SyntaxAgent.suggest_fix, SyntaxAgent.can_auto_fix,
      HardwareAgent.suggest_fix, HardwareAgent.can_auto_fix]

theorem mkReport_category (cfg : HostConfig) (msg : String) (t : Nat) :
    (mkReport cfg msg t).category = detect_category msg := by
  rw [mkReport_spec]

/-- Bundle of per-category match facts used to brute-force the classifier
characterization. -/
theorem detect_by_cases (msg : String) :
    detect_category msg =
      (if depPats.any (patMatch msg) then .dependency
       else if netPats.any (patMatch msg) then .network
       else if synPats.any (patMatch msg) then .syntaxErr
       else if hwPats.any (patMatch msg) then .hardware
       else if permPats.any (patMatch msg) then .permission
       else .unknown) := by
  simp [detect_category, PATTERNS, detectAux]

theorem no_match_detect_unknown {msg : String}
    (h : ∀ c, catMatches msg c = false) : detect_category msg = .unknown := by
  rw [detect_by_cases]
  have h1 := h .dependency
  have h2 := h .network
  have h3 := h .syntaxErr
  have h4 := h .hardware
  have h5 := h .permission
  simp only [catMatches] at h1 h2 h3 h4 h5
  simp [h1, h2, h3, h4, h5]

/-- Priority property of the classifier: any matched category is ranked no
earlier than the detected one. -/
theorem detect_priority (msg : String) :
    ∀ c, catMatches msg c = true →
      catMatches msg (detect_category msg) = true
      ∧ catRank (detect_category msg) ≤ catRank c := by
  have hd := detect_by_cases msg
  intro c hc
  by_cases h1 : depPats.any (patMatch msg) = true
  · rw [h1] at hd
    simp only [if_true] at hd
    rw [hd]
    refine ⟨by simpa [catMatches] using h1, ?_⟩
    cases c <;> simp [catRank]
  · rw [Bool.not_eq_true] at h1
    rw [h1] at hd
    simp only [Bool.false_eq_true, if_false] at hd
    by_cases h2 : netPats.any (patMatch msg) = true
    · rw [h2] at hd
      simp only [if_true] at hd
      rw [hd]
      refine ⟨by simpa [catMatches] using h2, ?_⟩
      cases c <;> simp only [catMatches] at hc <;> first
        | decide
        | (rw [h1] at hc; exact absurd hc (by decide))
    · rw [Bool.not_eq_true] at h2
      rw [h2] at hd
      simp only [Bool.false_eq_true, if_false] at hd
      by_cases h3 : synPats.any (patMatch msg) = true
      · rw [h3] at hd
        simp only [if_true] at hd
        rw [hd]
        refine ⟨by simpa [catMatches] using h3, ?_⟩
        cases c <;> simp only [catMatches] at hc <;> first
          | decide
          | (rw [h1] at hc; exact absurd hc (by decide))
          | (rw [h2] at hc; exact absurd hc (by decide))
      · rw [Bool.not_eq_true] at h3
        rw [h3] at hd
        simp only [Bool.false_eq_true, if_false] at hd
        by_cases h4 : hwPats.any (patMatch msg) = true
        · rw [h4] at hd
          simp only [if_true] at hd
          rw [hd]
          refine ⟨by simpa [catMatches] using h4, ?_⟩
          cases c <;> simp only [catMatches] at hc <;> first
            | decide
            | (rw [h1] at hc; exact absurd hc (by decide))
            | (rw [h2] at hc; exact absurd hc (by decide))
            | (rw [h3] at hc; exact absurd hc (by decide))
        · rw [Bool.not_eq_true] at h4
          rw [h4] at hd
          simp only [Bool.false_eq_true, if_false] at hd
          by_cases h5 : permPats.any (patMatch msg) = true
          · rw [h5] at hd
            simp only [if_true] at hd
            rw [hd]
            refine ⟨by simpa [catMatches] using h5, ?_⟩
            cases c <;> simp only [catMatches] at hc <;> first
              | decide
              | (rw [h1] at hc; exact absurd hc (by decide))
              | (rw [h2] at hc; exact absurd hc (by decide))
              | (rw [h3] at hc; exact absurd hc (by decide))
              | (rw [h4] at hc; exact absurd hc (by decide))
          · rw [Bool.not_eq_true] at h5
            rw [h5] at hd
            simp only [Bool.false_eq_true, if_false] at hd
            exfalso
            cases c <;> simp only [catMatches] at hc <;> first
              | (rw [h1] at hc; exact absurd hc (by decide))
              | (rw [h2] at hc; exact absurd hc (by decide))
              | (rw [h3] at hc; exact absurd hc (by decide))
              | (rw [h4] at hc; exact absurd hc (by decide))
              | (rw [h5] at hc; exact absurd hc (by decide))
              | exact absurd hc (by decide)

end ErrorRouter

/-! ## Claim theorems -/

open ErrorRouter

/-- C3: `detect_category` evaluates the pattern catalogue in the fixed
declared order Dependency, Network, Syntax, Hardware, Permission
(`PATTERNS` is that literal ordered list), returns the first category with
any case-insensitively matching rule (the `find?` characterization), a
text matching several categories is assigned the earliest matching one in
that order (rank inequality), and a text matching no rule of any category
yields `unknown`. -/
theorem detect_category_first_declared_match (msg : String) :
    detect_category msg =
      ((PATTERNS.find? (fun e => e.2.any (patMatch msg))).map Prod.fst).getD .unknown
    ∧ (∀ c, catMatches msg c = true →
        catMatches msg (detect_category msg) = true
        ∧ catRank (detect_category msg) ≤ catRank c)
    ∧ ((∀ c, catMatches msg c = false) → detect_category msg = .unknown) := by
  exact ⟨detectAux_eq_find msg PATTERNS, detect_priority msg,
    fun h => no_match_detect_unknown h⟩

/-- Witness for C3 at a concrete multi-category text: the message matches
both the Hardware and the Permission catalogues and is assigned the
earlier category, Hardware. -/
theorem detect_category_first_declared_match_witness :
    catMatches "GPIO setup failed: Permission denied" .permission = true
    ∧ catMatches "GPIO setup failed: Permission denied"
        (detect_category "GPIO setup failed: Permission denied") = true
    ∧ catRank (detect_category "GPIO setup failed: Permission denied") ≤
        catRank ErrorCategory.permission :=
  ⟨by decide,
   ((detect_category_first_declared_match "GPIO setup failed: Permission denied").2.1
      .permission (by decide)).1,
   ((detect_category_first_declared_match "GPIO setup failed: Permission denied").2.1
      .permission (by decide)).2⟩

/-- Bool-level hypothesis that no catalogue rule matches the message. -/
def noCatalogueMatch (msg : String) : Bool :=
  ErrorRouter.PATTERNS.all (fun e => e.2.all (fun p => !ErrorRouter.patMatch msg p))

theorem noCatalogueMatch_catMatches {msg : String} (h : noCatalogueMatch msg = true) :
    ∀ c, catMatches msg c = false := by
  intro c
  simp only [noCatalogueMatch, PATTERNS, List.all_cons, List.all_nil, Bool.and_true,
    Bool.and_eq_true] at h
  obtain ⟨h1, h2, h3, h4, h5⟩ := h
  have conv : ∀ ps : List (List String), ps.all (fun p => !patMatch msg p) = true →
      ps.any (patMatch msg) = false := by
    intro ps hall
    simp only [List.all_eq_true, Bool.not_eq_true'] at hall
    simp only [List.any_eq_false]
    intro p hp
    simp [hall p hp]
  cases c <;> simp [catMatches, conv _ h1, conv _ h2, conv _ h3, conv _ h4, conv _ h5]

/-- C8: a raw text matching no pattern of any category is analyzed to a
report with category `unknown`, `auto_fixable = false` and no suggestion. -/
theorem analyze_unknown_report (cfg : HostConfig) (msg : String) (t : Nat)
    (h : noCatalogueMatch msg = true) :
    (mkReport cfg msg t).category = .unknown
    ∧ (mkReport cfg msg t).auto_fixable = false
    ∧ (mkReport cfg msg t).suggested_fix = none := by
  have hu : detect_category msg = .unknown :=
    no_match_detect_unknown (noCatalogueMatch_catMatches h)
  rw [mkReport_spec]
  simp [suggOf, autoOf, hu, agentSuggest, agentCanAuto]

/-- Witness for C8 at a concrete text matching no catalogue rule. -/
theorem analyze_unknown_report_witness :
    (mkReport ⟨false, false⟩ "everything is fine here" 3).category = .unknown
    ∧ (mkReport ⟨false, false⟩ "everything is fine here" 3).auto_fixable = false
    ∧ (mkReport ⟨false, false⟩ "everything is fine here" 3).suggested_fix = none :=
  analyze_unknown_report ⟨false, false⟩ "everything is fine here" 3 (by decide)

/-- C9: the Permission category never gets a registered agent; a text
classified Permission is analyzed to a report without suggestion and not
auto-fixable, and `fix` on it fails with action `none` and the error
`No agent registered for permission` while handing no command at all to
the command runner (empty trace). -/
theorem permission_has_no_agent (cfg : HostConfig) (env : CmdEnv) (msg : String)
    (t : Nat) (approve : Bool) (h : detect_category msg = .permission) :
    (∀ r, agentExecute cfg env .permission r = none)
    ∧ (mkReport cfg msg t).suggested_fix = none
    ∧ (mkReport cfg msg t).auto_fixable = false
    ∧ ErrorRouter.fix cfg env msg approve t =
        (⟨false, "none", none, some "No agent registered for permission"⟩, []) := by
  refine ⟨fun r => rfl, ?_, ?_, ?_⟩
  · rw [mkReport_spec]
    simp [suggOf, h, agentSuggest]
  · rw [mkReport_spec]
    simp [autoOf, h, agentCanAuto]
  · have hc : (mkReport cfg msg t).category = .permission := by
      rw [mkReport_category, h]
    simp only [ErrorRouter.fix, hc]
    simp [agentExecute, catValue]

/-- Witness for C9 at the concrete text `Permission denied`. -/
theorem permission_has_no_agent_witness :
    (mkReport ⟨false, false⟩ "Permission denied" 0).suggested_fix = none
    ∧ ErrorRouter.fix ⟨false, false⟩ (fun _ _ => .timedOut) "Permission denied" true 0 =
        (⟨false, "none", none, some "No agent registered for permission"⟩, []) :=
  ⟨(permission_has_no_agent ⟨false, false⟩ (fun _ _ => .timedOut) "Permission denied" 0 true
      (by decide)).2.1,
   (permission_has_no_agent ⟨false, false⟩ (fun _ _ => .timedOut) "Permission denied" 0 true
      (by decide)).2.2.2⟩

/-- C10: `get_history` with a positive limit returns the last
`min limit length` reports in insertion order (the suffix of the history),
while limit `0` returns the entire history because the Python slice
`error_history[-0:]` denotes the whole sequence. -/
theorem get_history_window :
    (∀ (hist : List ErrorReport) (n : Nat), 0 < n →
        get_history hist (n : Int) = hist.drop (hist.length - min n hist.length))
    ∧ (∀ hist : List ErrorReport, get_history hist 0 = hist) := by
  constructor
  · intro hist n hn
    simp only [get_history]
    rw [if_pos (by omega : -(n : Int) < 0)]
    have habs : (-(n : Int)).natAbs = n := by
      rw [Int.natAbs_neg, Int.natAbs_ofNat]
    rw [habs, Nat.min_comm]
  · intro hist
    simp [get_history]

/-- Witness for C10 on a concrete two-report history with limit 1. -/
theorem get_history_window_witness :
    get_history
      [⟨"a", .unknown, none, none, none, none, false, 0⟩,
       ⟨"b", .unknown, none, none, none, none, false, 1⟩] (1 : Int) =
      [⟨"b", .unknown, none, none, none, none, false, 1⟩] := by
  have h := get_history_window.1
    [⟨"a", .unknown, none, none, none, none, false, 0⟩,
     ⟨"b", .unknown, none, none, none, none, false, 1⟩] 1 (by decide)
  simpa using h

/-- C4: `run_command` is a total function of the host outcome (it returns
in every case instead of raising): under the fixed 120-second timeout it
yields `(true, stdout)` on exit code 0, `(false, stderr)` on a non-zero
exit code, `(false, "Command timed out")` on timeout, and
`(false, message)` on any other raised execution failure. -/
theorem run_command_total_cases :
    COMMAND_TIMEOUT = 120
    ∧ (∀ (env : CmdEnv) (cmd : String) (out err : String) (code : Int),
        env cmd COMMAND_TIMEOUT = .exited code out err →
          (code = 0 → run_command env cmd = (true, out))
          ∧ (code ≠ 0 → run_command env cmd = (false, err)))
    ∧ (∀ (env : CmdEnv) (cmd : String),
        env cmd COMMAND_TIMEOUT = .timedOut →
          run_command env cmd = (false, "Command timed out"))
    ∧ (∀ (env : CmdEnv) (cmd : String) (m : String),
        env cmd COMMAND_TIMEOUT = .raised m → run_command env cmd = (false, m)) := by
  refine ⟨rfl, ?_, ?_, ?_⟩
  · intro env cmd out err code h
    constructor
    · intro h0
      simp [run_command, h, h0]
    · intro h0
      simp [run_command, h, h0]
  · intro env cmd h
    simp [run_command, h]
  · intro env cmd m h
    simp [run_command, h]

/-- Witness for C4 on concrete oracles covering all four outcome shapes. -/
theorem run_command_total_cases_witness :
    run_command (fun _ _ => .exited 0 "ok" "no") "ls" = (true, "ok")
    ∧ run_command (fun _ _ => .exited 2 "ok" "no") "ls" = (false, "no")
    ∧ run_command (fun _ _ => .timedOut) "ls" = (false, "Command timed out")
    ∧ run_command (fun _ _ => .raised "No such file or directory") "ls" =
        (false, "No such file or directory") :=
  ⟨((run_command_total_cases.2.1 (fun _ _ => .exited 0 "ok" "no") "ls" "ok" "no" 0 rfl).1 rfl),
   ((run_command_total_cases.2.1 (fun _ _ => .exited 2 "ok" "no") "ls" "ok" "no" 2 rfl).2
      (by decide)),
   (run_command_total_cases.2.2.1 (fun _ _ => .timedOut) "ls" rfl),
   (run_command_total_cases.2.2.2 (fun _ _ => .raised "No such file or directory") "ls"
      "No such file or directory" rfl)⟩

/-- C7: analyzing the same text twice (at possibly different clock values)
yields reports with identical category, subcategory and suggested fix, and
the history grows by exactly two entries across the two calls. -/
theorem analyze_twice_deterministic (cfg : HostConfig) (hist : List ErrorReport)
    (msg : String) (t1 t2 : Nat) :
    (analyze cfg hist msg t1).1.category =
        (analyze cfg (analyze cfg hist msg t1).2 msg t2).1.category
    ∧ (analyze cfg hist msg t1).1.subcategory =
        (analyze cfg (analyze cfg hist msg t1).2 msg t2).1.subcategory
    ∧ (analyze cfg hist msg t1).1.suggested_fix =
        (analyze cfg (analyze cfg hist msg t1).2 msg t2).1.suggested_fix
    ∧ (analyze cfg (analyze cfg hist msg t1).2 msg t2).2.length = hist.length + 2 := by
  simp [analyze, mkReport_spec]

/-- C1: for a report whose category has a registered agent, when the
report is not auto-fixable and `auto_approve` is false, `fix` returns the
failed no-action result embedding the suggestion in
`Manual fix required: ...`, and hands no command to the command runner
(in particular the agent's `execute_fix` never runs). -/
theorem fix_gate_manual_required (cfg : HostConfig) (env : CmdEnv) (msg : String)
    (t : Nat) (s : String)
    (hreg : registered (mkReport cfg msg t).category = true)
    (hauto : (mkReport cfg msg t).auto_fixable = false)
    (hsugg : (mkReport cfg msg t).suggested_fix = some s) :
    ErrorRouter.fix cfg env msg false t =
      (⟨false, "none", none, some ("Manual fix required: " ++ s)⟩, []) := by
  have hne : (mkReport cfg msg t).category ≠ .unknown := by
    intro h
    rw [h] at hreg
    exact absurd hreg (by decide)
  simp only [ErrorRouter.fix, if_neg hne]
  cases hc : (mkReport cfg msg t).category <;> rw [hc] at hreg <;>
    first
      | exact absurd hreg (by decide)
      | (simp only [agentExecute]
         simp [hauto, hsugg, pyOptStr])

/-- Witness for C1: a syntax error is never auto-fixable, so `fix` without
approval returns the embedded manual suggestion and an empty trace. -/
theorem fix_gate_manual_required_witness :
    ErrorRouter.fix ⟨false, false⟩ (fun _ _ => .exited 0 "" "") "SyntaxError: invalid syntax"
        false 9 =
      (⟨false, "none", none,
        some "Manual fix required: Check for typos, missing colons, or incorrect operators"⟩,
       []) :=
  fix_gate_manual_required ⟨false, false⟩ (fun _ _ => .exited 0 "" "")
    "SyntaxError: invalid syntax" 9
    "Check for typos, missing colons, or incorrect operators"
    (by decide) (by decide) (by decide)

/-- Counterexample for C5 as stated: the text `ModuleNotFoundError`
contains a recognized missing-module phrase and is classified Dependency,
but no module name is extractable, so the non-null suggestion is the
generic advice, which does not begin with `pip install`. -/
theorem dep_missing_module_cx :
    ctns "ModuleNotFoundError" "ModuleNotFoundError" = true
    ∧ (mkReport ⟨false, false⟩ "ModuleNotFoundError" 0).category = .dependency
    ∧ (mkReport ⟨false, false⟩ "ModuleNotFoundError" 0).suggested_fix =
        some "Install the missing module with pip"
    ∧ isPre "pip install".data "Install the missing module with pip".data = false :=
  ⟨by decide, by decide, by decide, by decide⟩

theorem depPats_any_of_phrase {msg : String}
    (h : (ctns msg "No module named" || ctns msg "ModuleNotFoundError") = true) :
    depPats.any (patMatch msg) = true := by
  have hor : ctns msg "No module named" = true ∨ ctns msg "ModuleNotFoundError" = true := by
    simpa using h
  rcases hor with h1 | h1
  · exact List.any_eq_true.mpr ⟨["No module named"], by decide, ctns_patMatch_single h1⟩
  · exact List.any_eq_true.mpr ⟨["ModuleNotFoundError"], by decide, ctns_patMatch_single h1⟩

theorem detect_dependency_of_any {msg : String}
    (h : depPats.any (patMatch msg) = true) : detect_category msg = .dependency := by
  have hd := detect_by_cases msg
  rw [h] at hd
  simpa only [if_true] using hd

theorem lower_phrase_of_ctns {msg lit : String} (low : String)
    (hlow : lowerChars lit.data = low.data) (h : ctns msg lit = true) :
    ctns (⟨lowerChars msg.data⟩ : String) low = true := by
  have hmap := containsSub_map_lower h
  rw [hlow] at hmap
  simpa [ctns] using hmap

/-- C5 (amended): a raw text containing `No module named` or
`ModuleNotFoundError` is analyzed to category Dependency with a non-null
suggestion; when the extraction patterns yield a truthy (non-empty) module
name the suggestion is exactly `pip install <module>`, otherwise — no
extraction, or an extracted name that is empty after `split('.')[0]` — it
is the generic instruction `Install the missing module with pip`. -/
theorem dep_missing_module_amended (cfg : HostConfig) (msg : String) (t : Nat)
    (h : (ctns msg "No module named" || ctns msg "ModuleNotFoundError") = true) :
    (mkReport cfg msg t).category = .dependency
    ∧ (mkReport cfg msg t).suggested_fix =
        some (if pyTruthyStr (DependencyAgent.extract_module_name msg) then
                "pip install " ++ pyOptStr (DependencyAgent.extract_module_name msg)
              else "Install the missing module with pip") := by
  have hdet : detect_category msg = .dependency :=
    detect_dependency_of_any (depPats_any_of_phrase h)
  have hbranch :
      (ctns (⟨lowerChars msg.data⟩ : String) "no module named"
        || ctns (⟨lowerChars msg.data⟩ : String) "modulenotfounderror") = true := by
    have hor : ctns msg "No module named" = true ∨ ctns msg "ModuleNotFoundError" = true := by
      simpa using h
    rcases hor with h1 | h1
    · have := lower_phrase_of_ctns "no module named" (by decide) h1
      simp [this]
    · have := lower_phrase_of_ctns "modulenotfounderror" (by decide) h1
      simp [this]
  refine ⟨by rw [mkReport_category, hdet], ?_⟩
  rw [mkReport_spec]
  simp only [suggOf, hdet, agentSuggest]
  have hs : DependencyAgent.suggest_fix (baseReport msg 0) =
      DependencyAgent.suggestImpl msg := rfl
  rw [hs]
  simp only [DependencyAgent.suggestImpl]
  rw [if_pos hbranch]

/-- Witness for C5 at both sides of the truthiness branch: the canonical
text `ModuleNotFoundError: No module named 'requests'` yields category
Dependency and suggestion `pip install requests`, while
`No module named '.hidden'` extracts an empty name and falls back to the
generic instruction. -/
theorem dep_missing_module_amended_witness :
    (mkReport ⟨false, false⟩ "ModuleNotFoundError: No module named 'requests'" 0).category =
      .dependency
    ∧ (mkReport ⟨false, false⟩ "ModuleNotFoundError: No module named 'requests'" 0).suggested_fix =
        some "pip install requests"
    ∧ (mkReport ⟨false, false⟩ "No module named '.hidden'" 0).suggested_fix =
        some "Install the missing module with pip" := by
  have h := dep_missing_module_amended ⟨false, false⟩
    "ModuleNotFoundError: No module named 'requests'" 0 (by decide)
  have hdot := dep_missing_module_amended ⟨false, false⟩
    "No module named '.hidden'" 0 (by decide)
  refine ⟨h.1, ?_, ?_⟩
  · rw [h.2]
    decide
  · rw [hdot.2]
    decide

namespace NetworkAgent

theorem tryPorts_eq : ∀ l : List (Option Nat),
    tryPorts l =
      (l.filterMap (fun o => o.bind (fun p => if inPortRange p then some p else none))).head?
  | [] => rfl
  | none :: rest => by simp [tryPorts, tryPorts_eq rest]
  | some p :: rest => by
    by_cases hp : inPortRange p = true
    · simp [tryPorts, hp]
    · rw [Bool.not_eq_true] at hp
      simp [tryPorts, hp, tryPorts_eq rest]

end NetworkAgent

/-- C6: port extraction tries the four patterns in order and returns the
first extracted number lying in 1–65535 (the `filterMap`/`head?`
characterization); the text `address already in use ... :8080` extracts
port 8080; and when no pattern yields an in-range number the result is
8000 or 3000 exactly when that literal digit string occurs in the text,
and `none` otherwise. -/
theorem extract_port_spec :
    (∀ msg, NetworkAgent.extract_port msg =
      match ((NetworkAgent.portExtractionList msg).filterMap
          (fun o => o.bind (fun p => if NetworkAgent.inPortRange p then some p else none))).head? with
      | some p => some p
      | none =>
        if ctns msg "8000" then some 8000
        else if ctns msg "3000" then some 3000
        else none)
    ∧ NetworkAgent.extract_port "address already in use ... :8080" = some 8080
    ∧ (∀ msg, NetworkAgent.tryPorts (NetworkAgent.portExtractionList msg) = none →
        (ctns msg "8000" = true → NetworkAgent.extract_port msg = some 8000)
        ∧ (ctns msg "8000" = false → ctns msg "3000" = true →
            NetworkAgent.extract_port msg = some 3000)
        ∧ (ctns msg "8000" = false → ctns msg "3000" = false →
            NetworkAgent.extract_port msg = none)) := by
  refine ⟨?_, by decide, ?_⟩
  · intro msg
    simp only [NetworkAgent.extract_port, NetworkAgent.tryPorts_eq]
  · intro msg htry
    refine ⟨?_, ?_, ?_⟩
    · intro h8
      simp [NetworkAgent.extract_port, htry, h8]
    · intro h8 h3
      simp [NetworkAgent.extract_port, htry, h8, h3]
    · intro h8 h3
      simp [NetworkAgent.extract_port, htry, h8, h3]

/-- Witness for C6 fallback clause: no pattern extracts a port from
`connect to 3000`, but the literal `3000` occurs, so 3000 is returned. -/
theorem extract_port_spec_witness :
    NetworkAgent.extract_port "connect to 3000" = some 3000 :=
  (extract_port_spec.2.2 "connect to 3000" (by decide)).2.1 (by decide) (by decide)

/-- Population discipline the code actually maintains on `FixResult`:
success populates output and clears error; failure populates error, and
additionally populates output only in the diagnostic results. -/
def resultFieldsOk (fr : FixResult) : Prop :=
  (fr.success = true → fr.output.isSome = true ∧ fr.error = none)
  ∧ (fr.success = false →
      fr.error.isSome = true ∧ (fr.output.isSome = true → fr.action_taken = "diagnostic"))

/-- Population rule in the words of the specification (claim C2 as
stated): on failure the output field is unpopulated, except possibly in
the `none` no-op case. -/
def specClaimedFieldsOk (fr : FixResult) : Prop :=
  (fr.success = true → fr.output.isSome = true ∧ fr.error = none)
  ∧ (fr.success = false →
      fr.action_taken = "none" ∨ (fr.error.isSome = true ∧ fr.output = none))

theorem dep_exec_fields_ok (env : CmdEnv) (r : ErrorReport) :
    resultFieldsOk (DependencyAgent.execute_fix env r).1 := by
  simp only [DependencyAgent.execute_fix]
  split
  · simp [resultFieldsOk]
  · cases hres : (run_command env (DependencyAgent.suggest_fix r)).1 <;>
      simp [resultFieldsOk, hres]

theorem net_exec_fields_ok (cfg : HostConfig) (env : CmdEnv) (r : ErrorReport) :
    resultFieldsOk (NetworkAgent.execute_fix cfg env r).1 := by
  simp only [NetworkAgent.execute_fix, NetworkAgent.fix_port_conflict]
  split
  · split
    · simp [resultFieldsOk]
    · split
      · simp [resultFieldsOk]
      · split <;> (try split) <;> simp [resultFieldsOk]
  · simp [resultFieldsOk]

theorem syn_exec_fields_ok (r : ErrorReport) :
    resultFieldsOk (SyntaxAgent.execute_fix r).1 := by
  simp [SyntaxAgent.execute_fix, resultFieldsOk]

theorem hw_exec_fields_ok (cfg : HostConfig) (env : CmdEnv) (r : ErrorReport) :
    resultFieldsOk (HardwareAgent.execute_fix cfg env r).1 := by
  simp only [HardwareAgent.execute_fix, HardwareAgent.kill_camera_processes,
    HardwareAgent.free_gpio]
  split
  · split <;> simp [resultFieldsOk]
  · split
    · simp [resultFieldsOk]
    · simp [resultFieldsOk]

theorem fix_fields_ok (cfg : HostConfig) (env : CmdEnv) (msg : String)
    (approve : Bool) (t : Nat) :
    resultFieldsOk (ErrorRouter.fix cfg env msg approve t).1 := by
  simp only [ErrorRouter.fix]
  split
  · simp [resultFieldsOk]
  · split
    · simp [resultFieldsOk]
    · next ex hex =>
      split
      · simp [resultFieldsOk]
      · cases hc : (mkReport cfg msg t).category <;> rw [hc] at hex <;>
          simp only [agentExecute, Option.some.injEq] at hex
        · rw [← hex]
          exact dep_exec_fields_ok env (mkReport cfg msg t)
        · rw [← hex]
          exact net_exec_fields_ok cfg env (mkReport cfg msg t)
        · rw [← hex]
          exact syn_exec_fields_ok (mkReport cfg msg t)
        · rw [← hex]
          exact hw_exec_fields_ok cfg env (mkReport cfg msg t)
        · exact absurd hex (by simp)
        · exact absurd hex (by simp)

/-- Counterexample for C2 as stated: `fix` with approval on a syntax error
delegates to the Syntax agent, whose failed diagnostic result populates
both output and error with action `diagnostic`, violating the claimed
rule. -/
theorem fix_results_population_cx :
    ¬ specClaimedFieldsOk
        (ErrorRouter.fix ⟨false, false⟩ (fun _ _ => .exited 0 "" "")
          "SyntaxError: invalid syntax" true 0).1 := by
  intro h
  have hfail := h.2 (by decide)
  rcases hfail with h1 | h2
  · exact absurd h1 (by decide)
  · exact absurd h2.2 (by decide)

/-- C2 (amended): every `FixResult` produced by `fix` or by any agent's
`execute_fix` populates output and clears error on success; on failure it
populates error, and output is additionally populated only in the failed
diagnostic results (action_taken `diagnostic`, produced by the Syntax and
Hardware agents). -/
theorem fix_results_population (cfg : HostConfig) (env : CmdEnv) (msg : String)
    (approve : Bool) (t : Nat) (r : ErrorReport) :
    resultFieldsOk (ErrorRouter.fix cfg env msg approve t).1
    ∧ resultFieldsOk (DependencyAgent.execute_fix env r).1
    ∧ resultFieldsOk (NetworkAgent.execute_fix cfg env r).1
    ∧ resultFieldsOk (SyntaxAgent.execute_fix r).1
    ∧ resultFieldsOk (HardwareAgent.execute_fix cfg env r).1 :=
  ⟨fix_fields_ok cfg env msg approve t, dep_exec_fields_ok env r,
   net_exec_fields_ok cfg env r, syn_exec_fields_ok r, hw_exec_fields_ok cfg env r⟩

/-- Witness for C2 (amended) at a concrete failed fix: the error field is
populated and the populated output is licensed by the diagnostic action. -/
theorem fix_results_population_witness :
    (ErrorRouter.fix ⟨false, false⟩ (fun _ _ => .exited 0 "" "")
        "SyntaxError: invalid syntax" true 0).1.error.isSome = true
    ∧ (ErrorRouter.fix ⟨false, false⟩ (fun _ _ => .exited 0 "" "")
        "SyntaxError: invalid syntax" true 0).1.action_taken = "diagnostic" :=
  ⟨((fix_results_population ⟨false, false⟩ (fun _ _ => .exited 0 "" "")
      "SyntaxError: invalid syntax" true 0
      ⟨"", .unknown, none, none, none, none, false, 0⟩).1.2 (by decide)).1,
   ((fix_results_population ⟨false, false⟩ (fun _ _ => .exited 0 "" "")
      "SyntaxError: invalid syntax" true 0
      ⟨"", .unknown, none, none, none, none, false, 0⟩).1.2 (by decide)).2 (by decide)⟩
